import Mathlib

/-!
Verification development for the configuration and credential-resolution
layer of the `black-widow` mesh-networking daemon (`src/bw/config.rs`).

The Rust code is shallowly embedded:

* `bytes::Bytes` becomes `List Nat` (each element a byte value);
* the filesystem becomes an explicit map from paths to optional contents,
  threaded through every function that performs I/O, together with a
  counter of filesystem accesses (each `File::open` attempt counts one);
* fallible Rust code returns an `Outcome`: `ok`, `err` (a returned
  `std::io::Error`), or `panicked` (an `unwrap` on an error value);
* `&mut self` methods return the updated value alongside the outcome;
* serde deserialization is embedded as explicit parse functions over a
  small document model (`Doc`), following the serde attributes on each
  type (`untagged`, `tag = "type"`, `default`, `skip`, `rename`).
-/

/-- Raw byte strings (`bytes::Bytes`): a list of byte values. -/
abbrev Bytes := List Nat

/-- The filesystem seen by the loader: a map from path to contents.
`none` means the path cannot be opened (nonexistent or unreadable). -/
structure Fs where
  files : String → Option Bytes

/-- `std::io::Error` as produced by this module: a failed open/read of
a path. -/
inductive IoError where
  | cannotOpen (path : String)
  deriving DecidableEq, Repr

/-- Outcome of running a piece of Rust code: normal return, a returned
error, or a panic (an `unwrap` applied to an error value). -/
inductive Outcome (α : Type) where
  | ok (a : α)
  | err (e : IoError)
  | panicked
  deriving DecidableEq, Repr

/-- UTF-8 encoding of one character, as byte values. -/
def utf8EncodeCharNat (c : Char) : List Nat :=
  let n := c.toNat
  if n < 128 then [n]
  else if n < 2048 then [192 + n / 64, 128 + n % 64]
  else if n < 65536 then [224 + n / 4096, 128 + (n / 64) % 64, 128 + n % 64]
  else [240 + n / 262144, 128 + (n / 4096) % 64, 128 + (n / 64) % 64, 128 + n % 64]

/-- UTF-8 bytes of a string (`String::into_bytes` in Rust). -/
def strBytes (s : String) : Bytes :=
  (s.data.map utf8EncodeCharNat).flatten

/-- Value of one base64 alphabet character (standard alphabet), `none`
for a character outside the alphabet. -/
def base64CharVal (c : Char) : Option Nat :=
  if 'A' ≤ c ∧ c ≤ 'Z' then some (c.toNat - 65)
  else if 'a' ≤ c ∧ c ≤ 'z' then some (c.toNat - 97 + 26)
  else if '0' ≤ c ∧ c ≤ '9' then some (c.toNat - 48 + 52)
  else if c = '+' then some 62
  else if c = '/' then some 63
  else none

/-- Decode a base64 character stream four characters at a time
(standard alphabet, `=` padding allowed only in the final quantum),
as `base64::decode` does; `none` on any invalid input. -/
def base64DecodeChunks : List Char → Option Bytes
  | [] => some []
  | a :: b :: c :: d :: rest =>
    match base64CharVal a, base64CharVal b with
    | some x, some y =>
      if c = '=' ∧ d = '=' ∧ rest = [] then
        some [x * 4 + y / 16]
      else if d = '=' ∧ rest = [] then
        match base64CharVal c with
        | some z => some [x * 4 + y / 16, (y % 16) * 16 + z / 4]
        | none => none
      else
        match base64CharVal c, base64CharVal d with
        | some z, some w =>
          (base64DecodeChunks rest).map
            (fun t => (x * 4 + y / 16) :: ((y % 16) * 16 + z / 4) :: ((z % 4) * 64 + w) :: t)
        | _, _ => none
    | _, _ => none
  | _ => none

/-- `base64::decode`: `none` when the text is not valid base64. -/
def base64decode (s : String) : Option Bytes :=
  base64DecodeChunks s.data

/-- `FileOrValue`: an untagged choice between a file reference and an
inline base64 value, each with a serde-skipped byte cache. -/
inductive FileOrValue where
  | file (path : String) (cache : Option Bytes)
  | value (encoded : String) (cache : Option Bytes)
  deriving DecidableEq, Repr

/-- `FileOrValue::get_value` (`&self`, so the cache is NOT written).
Returns the outcome and the number of filesystem accesses performed:
* `Value`: cached bytes if cached, else `base64::decode(value).unwrap()`
  — a panic (not an error) when the text is not valid base64;
* `File`: cached bytes if cached, else open and read the file,
  returning the io error when the open fails. -/
def FileOrValue.get_value : FileOrValue → Fs → Outcome Bytes × Nat
  | .value v cache, _ =>
    match cache with
    | some c => (.ok c, 0)
    | none =>
      match base64decode v with
      | some bs => (.ok bs, 0)
      | none => (.panicked, 0)
  | .file f cache, fs =>
    match cache with
    | some c => (.ok c, 0)
    | none =>
      match fs.files f with
      | some contents => (.ok contents, 1)
      | none => (.err (.cannotOpen f), 1)

/-- Overwrite the cache slot of a `FileOrValue` (the `*cache = Some(val)`
assignment inside `FileOrValue::load`). -/
def FileOrValue.setCache : FileOrValue → Bytes → FileOrValue
  | .file f _, b => .file f (some b)
  | .value v _, b => .value v (some b)

/-- `FileOrValue::load` (`&mut self`): resolve via `get_value` and store
the result in the cache; errors and panics of `get_value` propagate. -/
def FileOrValue.load (v : FileOrValue) (fs : Fs) : Outcome FileOrValue × Nat :=
  match v.get_value fs with
  | (.ok val, n) => (.ok (v.setCache val), n)
  | (.err e, n) => (.err e, n)
  | (.panicked, n) => (.panicked, n)

/-- An IP listen address. The source uses `std::net::IpAddr`; only the
IPv4 form occurs in this module (default `0.0.0.0`), so the model keeps
the four octets. -/
inductive IpAddr where
  | v4 (a b c d : Nat)
  deriving DecidableEq, Repr

/-- A socket address (`std::net::SocketAddr`). Its textual syntax is
validated by the Rust standard library, outside this repository; no
claim depends on that validation, so the model keeps the text. -/
abbrev SocketAddr := String

/-- `ServerConfig`: worker thread count, listen port, listen address,
optional unix-socket path. -/
structure ServerConfig where
  threads : Nat
  port : Nat
  ip : IpAddr
  unix_socket : Option String
  deriving DecidableEq, Repr

/-- `ServerConfig::default_threads`. -/
def ServerConfig.default_threads : Nat := 2

/-- `ServerConfig::default_port`. -/
def ServerConfig.default_port : Nat := 0

/-- `ServerConfig::default_ip`. -/
def ServerConfig.default_ip : IpAddr := .v4 0 0 0 0

/-- `Default for ServerConfig`. -/
def ServerConfig.default : ServerConfig :=
  { threads := ServerConfig.default_threads
    unix_socket := none
    ip := ServerConfig.default_ip
    port := ServerConfig.default_port }

/-- `DnsNetworkConfig`. -/
structure DnsNetworkConfig where
  domain : String
  deriving DecidableEq, Repr

/-- `PeersNetworkConfig`. -/
structure PeersNetworkConfig where
  peers : List SocketAddr
  deriving DecidableEq, Repr

/-- `NetworkConfig`: internally tagged (`tag = "type"`) choice between
`dns` and `peers` peer-discovery sources. -/
inductive NetworkConfig where
  | DnsNetworkConfig (c : DnsNetworkConfig)
  | PeersNetworkConfig (c : PeersNetworkConfig)
  deriving DecidableEq, Repr

/-- `InterfaceConfigMode`: `tap` or `tun`. -/
inductive InterfaceConfigMode where
  | Tap
  | Tun
  deriving DecidableEq, Repr

/-- `InterfaceConfig`: virtual-interface mode, name template, MTU. -/
structure InterfaceConfig where
  mode : InterfaceConfigMode
  name : String
  mtu : Nat
  deriving DecidableEq, Repr

/-- `InterfaceConfig::default_name`. -/
def InterfaceConfig.default_name : String := "bw%d"

/-- `InterfaceConfig::default_mtu`. -/
def InterfaceConfig.default_mtu : Nat := 1400

/-- `InterfaceConfig::default_mode`. -/
def InterfaceConfig.default_mode : InterfaceConfigMode := .Tap

/-- `Default for InterfaceConfig`. -/
def InterfaceConfig.default : InterfaceConfig :=
  { mode := InterfaceConfig.default_mode
    name := InterfaceConfig.default_name
    mtu := InterfaceConfig.default_mtu }

/-- `RouterChoice`: only `Dumb` without the `python-router` feature
(the feature is not enabled in the embedded build). -/
inductive RouterChoice where
  | Dumb
  deriving DecidableEq, Repr

/-- `RouterConfig`. -/
structure RouterConfig where
  name : RouterChoice
  deriving DecidableEq, Repr

/-- `RouterConfig::default_name`. -/
def RouterConfig.default_name : RouterChoice := .Dumb

/-- `Default for RouterConfig`. -/
def RouterConfig.default : RouterConfig :=
  { name := RouterConfig.default_name }

/-- `SharedSecretConfig`: a plaintext shared secret with a
serde-skipped byte cache. -/
structure SharedSecretConfig where
  cache : Option Bytes
  secret : String
  deriving DecidableEq, Repr

/-- `SharedSecretConfig::get_secret`: cached bytes if cached, else the
UTF-8 bytes of the secret string (infallible, no I/O). -/
def SharedSecretConfig.get_secret (c : SharedSecretConfig) : Bytes :=
  match c.cache with
  | some b => b
  | none => strBytes c.secret

/-- `SharedSecretConfig::load`: store `get_secret()` in the cache. -/
def SharedSecretConfig.load (c : SharedSecretConfig) :
    Outcome SharedSecretConfig × Nat :=
  (.ok { c with cache := some c.get_secret }, 0)

/-- `CertificateAuthorityConfig`: a signature and a CA blob, each a
`FileOrValue`. -/
structure CertificateAuthorityConfig where
  signature : FileOrValue
  ca : FileOrValue
  deriving DecidableEq, Repr

/-- `CertificateAuthorityConfig::load`: load `signature`, then `ca`;
the first error or panic aborts. -/
def CertificateAuthorityConfig.load (c : CertificateAuthorityConfig)
    (fs : Fs) : Outcome CertificateAuthorityConfig × Nat :=
  match c.signature.load fs with
  | (.ok sig', n1) =>
    match c.ca.load fs with
    | (.ok ca', n2) => (.ok { signature := sig', ca := ca' }, n1 + n2)
    | (.err e, n2) => (.err e, n1 + n2)
    | (.panicked, n2) => (.panicked, n1 + n2)
  | (.err e, n1) => (.err e, n1)
  | (.panicked, n1) => (.panicked, n1)

/-- `AuthConfig`: serde-`untagged` choice between the shared-secret and
certificate-authority shapes, in this declaration order. -/
inductive AuthConfig where
  | SharedSecretConfig (c : SharedSecretConfig)
  | CertificateAuthorityConfig (c : CertificateAuthorityConfig)
  deriving DecidableEq, Repr

/-- `AuthConfig::load`: dispatch to the variant's `load`. -/
def AuthConfig.load : AuthConfig → Fs → Outcome AuthConfig × Nat
  | .SharedSecretConfig c, _ =>
    match c.load with
    | (.ok c', n) => (.ok (.SharedSecretConfig c'), n)
    | (.err e, n) => (.err e, n)
    | (.panicked, n) => (.panicked, n)
  | .CertificateAuthorityConfig c, fs =>
    match c.load fs with
    | (.ok c', n) => (.ok (.CertificateAuthorityConfig c'), n)
    | (.err e, n) => (.err e, n)
    | (.panicked, n) => (.panicked, n)

/-- Modelled from the spec: `ring::signature::Ed25519KeyPair` is
external to `src/`; the model keeps only what the module uses, the
public key bytes exposed by `public_key_bytes()`. -/
structure Ed25519KeyPair where
  public_key_bytes : Bytes
  deriving DecidableEq, Repr

/-- Modelled from the spec: `Ed25519KeyPair::from_seed_unchecked`
(external `ring` crate) derives a keypair from a seed and fails exactly
when the seed is not the expected 32 bytes; the derivation itself is a
fixed pure function of the seed, passed in as `derive`. -/
def Ed25519KeyPair.from_seed_unchecked (derive : Bytes → Bytes)
    (seed : Bytes) : Option Ed25519KeyPair :=
  if seed.length = 32 then some { public_key_bytes := derive seed } else none

/-- `Config`: the configuration root. `public_key` and
`cached_network_id` are serde-skipped caches. -/
structure Config where
  key : FileOrValue
  public_key : Bytes
  cached_network_id : Option Bytes
  network_id : String
  server : ServerConfig
  auth : AuthConfig
  networks : List NetworkConfig
  interface : InterfaceConfig
  router : RouterConfig
  deriving DecidableEq, Repr

/-- `Config::get_public_key`: clone of the cached public-key bytes. -/
def Config.get_public_key (c : Config) : Bytes :=
  c.public_key

/-- `Config::get_network_id`: cached bytes if cached, else the UTF-8
bytes of the `network-id` string. -/
def Config.get_network_id (c : Config) : Bytes :=
  match c.cached_network_id with
  | some b => b
  | none => strBytes c.network_id

/-- `Config::get_key_pair`:
`Ed25519KeyPair::from_seed_unchecked(Input::from(&self.key.get_value().unwrap())).unwrap()`.
Both `unwrap`s turn failure into a panic, so the outcome is never
`err`. -/
def Config.get_key_pair (derive : Bytes → Bytes) (c : Config) (fs : Fs) :
    Outcome Ed25519KeyPair × Nat :=
  match c.key.get_value fs with
  | (.ok seed, n) =>
    match Ed25519KeyPair.from_seed_unchecked derive seed with
    | some kp => (.ok kp, n)
    | none => (.panicked, n)
  | (.err _, n) => (.panicked, n)
  | (.panicked, n) => (.panicked, n)

/-- The four statements of `Config::load`, in source order, used to
record which of them a run executes. -/
inductive Step where
  | deriveIdentity
  | cacheNetworkId
  | authLoad
  | keyLoad
  deriving DecidableEq, Repr

/-- `Config::load` (`&mut self`): (1) derive the keypair and cache the
public key bytes, (2) cache the resolved network-id bytes, (3)
`self.auth.load()?`, (4) `self.key.load()?`. Returns the outcome, the
total filesystem accesses, and the list of statements executed. -/
def Config.load (derive : Bytes → Bytes) (c : Config) (fs : Fs) :
    Outcome Config × Nat × List Step :=
  match c.get_key_pair derive fs with
  | (.ok kp, n1) =>
    let c1 : Config := { c with public_key := kp.public_key_bytes }
    let c2 : Config := { c1 with cached_network_id := some c1.get_network_id }
    match c2.auth.load fs with
    | (.ok auth', n2) =>
      let c3 : Config := { c2 with auth := auth' }
      match c3.key.load fs with
      | (.ok key', n3) =>
        (.ok { c3 with key := key' }, n1 + n2 + n3,
          [.deriveIdentity, .cacheNetworkId, .authLoad, .keyLoad])
      | (.err e, n3) =>
        (.err e, n1 + n2 + n3,
          [.deriveIdentity, .cacheNetworkId, .authLoad, .keyLoad])
      | (.panicked, n3) =>
        (.panicked, n1 + n2 + n3,
          [.deriveIdentity, .cacheNetworkId, .authLoad, .keyLoad])
    | (.err e, n2) =>
      (.err e, n1 + n2, [.deriveIdentity, .cacheNetworkId, .authLoad])
    | (.panicked, n2) =>
      (.panicked, n1 + n2, [.deriveIdentity, .cacheNetworkId, .authLoad])
  | (.err e, n1) => (.err e, n1, [.deriveIdentity])
  | (.panicked, n1) => (.panicked, n1, [.deriveIdentity])

/-- A parsed configuration document value (what serde sees after the
TOML front end): string, integer, array, or table. -/
inductive Doc where
  | str (s : String)
  | int (n : Int)
  | arr (items : List Doc)
  | table (fields : List (String × Doc))

/-- A serde deserialization error. `untaggedNoMatch` is the error for a
serde-`untagged` enum none of whose variants matched (what the spec
calls `AmbiguousAuthConfigError` for `AuthConfig`); `unknownVariant`
carries the offending discriminator value of an internally tagged enum
(the spec's `UnknownVariantError`). -/
inductive ParseError where
  | missingField (name : String)
  | typeMismatch (expected : String)
  | unknownVariant (value : String)
  | untaggedNoMatch (enumName : String)
  deriving DecidableEq, Repr

/-- Look a field up in a table's field list (first occurrence wins). -/
def getField : List (String × Doc) → String → Option Doc
  | [], _ => none
  | (k, v) :: rest, name => if k = name then some v else getField rest name

/-- Deserialize a string. -/
def Doc.asString : Doc → Except ParseError String
  | .str s => .ok s
  | _ => .error (.typeMismatch "string")

/-- Deserialize an unsigned integer smaller than `bound` (the range
check serde performs for `u8`/`u16`/`u32`). -/
def Doc.asNatLt (bound : Nat) : Doc → Except ParseError Nat
  | .int n => if 0 ≤ n ∧ n < bound then .ok n.toNat else .error (.typeMismatch "integer range")
  | _ => .error (.typeMismatch "integer")

/-- A required field of a table: missing or wrong-typed fields are
errors. -/
def reqStringField (kvs : List (String × Doc)) (name : String) :
    Except ParseError String :=
  match getField kvs name with
  | some d => d.asString
  | none => .error (.missingField name)

/-- An optional field with a serde `default`: absent means the default,
present must deserialize. -/
def optField {α : Type} (kvs : List (String × Doc)) (name : String)
    (dflt : α) (p : Doc → Except ParseError α) : Except ParseError α :=
  match getField kvs name with
  | some d => p d
  | none => .ok dflt

/-- Deserialize a `FileOrValue`: serde-`untagged`, so try `File` (needs
a string `file` field) then `Value` (needs a string `value` field), in
declaration order; unknown fields are ignored; the `cache` field is
serde-skipped and defaults to `None`. -/
def FileOrValue.parse : Doc → Except ParseError FileOrValue
  | .table kvs =>
    match reqStringField kvs "file" with
    | .ok f => .ok (.file f none)
    | .error _ =>
      match reqStringField kvs "value" with
      | .ok v => .ok (.value v none)
      | .error _ => .error (.untaggedNoMatch "FileOrValue")
  | _ => .error (.untaggedNoMatch "FileOrValue")

/-- Deserialize a `SharedSecretConfig`: requires a string `secret`
field; unknown fields are ignored; `cache` is serde-skipped. -/
def SharedSecretConfig.parse : Doc → Except ParseError SharedSecretConfig
  | .table kvs =>
    match reqStringField kvs "secret" with
    | .ok s => .ok { cache := none, secret := s }
    | .error e => .error e
  | _ => .error (.typeMismatch "table")

/-- Deserialize a `CertificateAuthorityConfig`: requires `signature`
and `ca` fields, each a `FileOrValue`; unknown fields are ignored. -/
def CertificateAuthorityConfig.parse :
    Doc → Except ParseError CertificateAuthorityConfig
  | .table kvs =>
    match getField kvs "signature" with
    | none => .error (.missingField "signature")
    | some dsig =>
      match FileOrValue.parse dsig with
      | .error e => .error e
      | .ok sig =>
        match getField kvs "ca" with
        | none => .error (.missingField "ca")
        | some dca =>
          match FileOrValue.parse dca with
          | .error e => .error e
          | .ok ca => .ok { signature := sig, ca := ca }
  | _ => .error (.typeMismatch "table")

/-- Deserialize an `AuthConfig`: serde-`untagged`, so try
`SharedSecretConfig` then `CertificateAuthorityConfig`, in declaration
order; if neither matches, fail with the untagged no-match error. -/
def AuthConfig.parse (d : Doc) : Except ParseError AuthConfig :=
  match SharedSecretConfig.parse d with
  | .ok c => .ok (.SharedSecretConfig c)
  | .error _ =>
    match CertificateAuthorityConfig.parse d with
    | .ok c => .ok (.CertificateAuthorityConfig c)
    | .error _ => .error (.untaggedNoMatch "AuthConfig")

/-- Deserialize a `DnsNetworkConfig` from the fields beside the tag. -/
def DnsNetworkConfig.parse (kvs : List (String × Doc)) :
    Except ParseError DnsNetworkConfig :=
  match reqStringField kvs "domain" with
  | .ok dom => .ok { domain := dom }
  | .error e => .error e

/-- Deserialize a list of socket addresses. -/
def parseSocketAddrs : List Doc → Except ParseError (List SocketAddr)
  | [] => .ok []
  | d :: rest =>
    match d.asString with
    | .error e => .error e
    | .ok s =>
      match parseSocketAddrs rest with
      | .ok tail => .ok (s :: tail)
      | .error e => .error e

/-- Deserialize a `PeersNetworkConfig`: the `peers` field defaults to
the empty list. -/
def PeersNetworkConfig.parse (kvs : List (String × Doc)) :
    Except ParseError PeersNetworkConfig :=
  match getField kvs "peers" with
  | none => .ok { peers := [] }
  | some (.arr items) =>
    match parseSocketAddrs items with
    | .ok ps => .ok { peers := ps }
    | .error e => .error e
  | some _ => .error (.typeMismatch "array")

/-- Deserialize a `NetworkConfig`: internally tagged by `type`; the
renamed variants are `dns` and `peers`; any other tag value fails with
`unknownVariant` carrying that value. -/
def NetworkConfig.parse : Doc → Except ParseError NetworkConfig
  | .table kvs =>
    match getField kvs "type" with
    | none => .error (.missingField "type")
    | some d =>
      match d.asString with
      | .error e => .error e
      | .ok tag =>
        if tag = "dns" then
          match DnsNetworkConfig.parse kvs with
          | .ok c => .ok (.DnsNetworkConfig c)
          | .error e => .error e
        else if tag = "peers" then
          match PeersNetworkConfig.parse kvs with
          | .ok c => .ok (.PeersNetworkConfig c)
          | .error e => .error e
        else .error (.unknownVariant tag)
  | _ => .error (.typeMismatch "table")

/-- Deserialize a list of `NetworkConfig` entries. -/
def parseNetworkList : List Doc → Except ParseError (List NetworkConfig)
  | [] => .ok []
  | d :: rest =>
    match NetworkConfig.parse d with
    | .error e => .error e
    | .ok n =>
      match parseNetworkList rest with
      | .ok tail => .ok (n :: tail)
      | .error e => .error e

/-- Parse one decimal IPv4 octet (digits only, value below 256). -/
def parseOctet (s : String) : Option Nat :=
  match s.toNat? with
  | some n => if n < 256 then some n else none
  | none => none

/-- Parse a dotted-quad IPv4 address, the only address form this module
uses (`std::net::IpAddr` also accepts IPv6 text; no claim depends on
it). -/
def IpAddr.parse (s : String) : Option IpAddr :=
  match (s.splitOn ".").map parseOctet with
  | [some a, some b, some c, some d] => some (.v4 a b c d)
  | _ => none

/-- Deserialize the `ip` field. -/
def Doc.asIpAddr : Doc → Except ParseError IpAddr
  | .str s =>
    match IpAddr.parse s with
    | some ip => .ok ip
    | none => .error (.typeMismatch "IP address")
  | _ => .error (.typeMismatch "IP address")

/-- Deserialize a `ServerConfig`: every field has a serde default. -/
def ServerConfig.parse : Doc → Except ParseError ServerConfig
  | .table kvs =>
    match optField kvs "threads" ServerConfig.default_threads (Doc.asNatLt 256) with
    | .error e => .error e
    | .ok threads =>
      match optField kvs "port" ServerConfig.default_port (Doc.asNatLt 65536) with
      | .error e => .error e
      | .ok port =>
        match optField kvs "ip" ServerConfig.default_ip Doc.asIpAddr with
        | .error e => .error e
        | .ok ip =>
          match optField kvs "unix-socket" none
              (fun d => (d.asString).map some) with
          | .error e => .error e
          | .ok us => .ok { threads, port, ip, unix_socket := us }
  | _ => .error (.typeMismatch "table")

/-- Deserialize an `InterfaceConfigMode`: `rename_all = "lowercase"`,
so `tap` or `tun`; any other value is an unknown variant. -/
def InterfaceConfigMode.parse : Doc → Except ParseError InterfaceConfigMode
  | .str s =>
    if s = "tap" then .ok .Tap
    else if s = "tun" then .ok .Tun
    else .error (.unknownVariant s)
  | _ => .error (.typeMismatch "string")

/-- Deserialize an `InterfaceConfig`: every field has a serde default. -/
def InterfaceConfig.parse : Doc → Except ParseError InterfaceConfig
  | .table kvs =>
    match optField kvs "mode" InterfaceConfig.default_mode InterfaceConfigMode.parse with
    | .error e => .error e
    | .ok mode =>
      match optField kvs "name" InterfaceConfig.default_name Doc.asString with
      | .error e => .error e
      | .ok name =>
        match optField kvs "mtu" InterfaceConfig.default_mtu (Doc.asNatLt 4294967296) with
        | .error e => .error e
        | .ok mtu => .ok { mode, name, mtu }
  | _ => .error (.typeMismatch "table")

/-- Deserialize a `RouterChoice`: `rename_all = "lowercase"`, so `dumb`
(the `python` variant is behind the disabled `python-router` feature). -/
def RouterChoice.parse : Doc → Except ParseError RouterChoice
  | .str s =>
    if s = "dumb" then .ok .Dumb
    else .error (.unknownVariant s)
  | _ => .error (.typeMismatch "string")

/-- Deserialize a `RouterConfig`: the `name` field has a serde default;
unknown fields (such as a `python` table when the feature is off) are
ignored. -/
def RouterConfig.parse : Doc → Except ParseError RouterConfig
  | .table kvs =>
    match optField kvs "name" RouterConfig.default_name RouterChoice.parse with
    | .error e => .error e
    | .ok name => .ok { name }
  | _ => .error (.typeMismatch "table")

/-- Deserialize the array of `network` entries. -/
def Doc.asNetworkList : Doc → Except ParseError (List NetworkConfig)
  | .arr items => parseNetworkList items
  | _ => .error (.typeMismatch "array")

/-- Deserialize a `Config` from a document: `key`, `network-id` and
`auth` are required; `public_key` and `cached_network_id` are
serde-skipped and take their defaults (empty bytes, no cache);
`server`, `network`, `interface` and `router` default. -/
def Config.parse : Doc → Except ParseError Config
  | .table kvs =>
    match getField kvs "key" with
    | none => .error (.missingField "key")
    | some dkey =>
      match FileOrValue.parse dkey with
      | .error e => .error e
      | .ok key =>
        match reqStringField kvs "network-id" with
        | .error e => .error e
        | .ok nid =>
          match optField kvs "server" ServerConfig.default ServerConfig.parse with
          | .error e => .error e
          | .ok server =>
            match getField kvs "auth" with
            | none => .error (.missingField "auth")
            | some dauth =>
              match AuthConfig.parse dauth with
              | .error e => .error e
              | .ok auth =>
                match optField kvs "network" [] Doc.asNetworkList with
                | .error e => .error e
                | .ok networks =>
                  match optField kvs "interface" InterfaceConfig.default InterfaceConfig.parse with
                  | .error e => .error e
                  | .ok iface =>
                    match optField kvs "router" RouterConfig.default RouterConfig.parse with
                    | .error e => .error e
                    | .ok router =>
                      .ok { key := key
                            public_key := []
                            cached_network_id := none
                            network_id := nid
                            server := server
                            auth := auth
                            networks := networks
                            interface := iface
                            router := router }
  | _ => .error (.typeMismatch "table")

/-! ## Helper lemmas -/

/-- After `setCache`, `get_value` returns the cached bytes with no
filesystem access, on any filesystem. -/
theorem FileOrValue.get_value_setCache (v : FileOrValue) (b : Bytes) (fs : Fs) :
    (v.setCache b).get_value fs = (.ok b, 0) := by
  cases v <;> rfl

/-- Writing the cache twice keeps the last value. -/
theorem FileOrValue.setCache_setCache (v : FileOrValue) (b b' : Bytes) :
    (v.setCache b).setCache b' = v.setCache b' := by
  cases v <;> rfl

/-- A successful `FileOrValue::load` is exactly a successful
`get_value` whose bytes are written to the cache. -/
theorem FileOrValue.load_ok_iff (v v' : FileOrValue) (fs : Fs) (n : Nat) :
    v.load fs = (.ok v', n) ↔
      ∃ b, v.get_value fs = (.ok b, n) ∧ v' = v.setCache b := by
  constructor
  · intro h
    unfold FileOrValue.load at h
    rcases hg : v.get_value fs with ⟨o, m⟩
    rw [hg] at h
    cases o with
    | ok b =>
      simp only [Prod.mk.injEq, Outcome.ok.injEq] at h
      obtain ⟨hv, hn⟩ := h
      exact ⟨b, by rw [hn], hv.symm⟩
    | err e => simp at h
    | panicked => simp at h
  · rintro ⟨b, hg, hv⟩
    unfold FileOrValue.load
    rw [hg, hv]

/-- A `FileOrValue` whose cache was just written reloads to itself with
no filesystem access. -/
theorem FileOrValue.load_setCache (v : FileOrValue) (b : Bytes) (fs : Fs) :
    (v.setCache b).load fs = (.ok (v.setCache b), 0) := by
  unfold FileOrValue.load
  rw [FileOrValue.get_value_setCache]
  simp [FileOrValue.setCache_setCache]

/-! ## C1: structural discrimination of the authentication document -/

/-- C1 (counterexample): a document containing BOTH shapes — a
`secret` field and the `signature`+`ca` pair — does not fail; the
untagged deserializer silently picks the first declared variant,
`SharedSecretConfig`, contradicting the claim that such a document
fails with the ambiguity error. -/
theorem auth_parse_both_shapes_counterexample :
    AuthConfig.parse
        (Doc.table
          [("secret", .str "s"),
           ("signature", .table [("value", .str "x")]),
           ("ca", .table [("value", .str "y")])]) =
      .ok (.SharedSecretConfig { cache := none, secret := "s" }) := by
  rfl

/-- C1 (amended): a document whose `secret` field is a string resolves
to `SharedSecretConfig` — even when the `signature`+`ca` shape is also
present; a document without a `secret` field whose `signature` and `ca`
fields parse resolves to `CertificateAuthorityConfig`; a document with
neither shape fails with the untagged no-match error (the spec's
`AmbiguousAuthConfigError`). -/
theorem auth_parse_discrimination :
    (∀ kvs s, getField kvs "secret" = some (.str s) →
      AuthConfig.parse (.table kvs) =
        .ok (.SharedSecretConfig { cache := none, secret := s })) ∧
    (∀ kvs dsig dca fv1 fv2, getField kvs "secret" = none →
      getField kvs "signature" = some dsig →
      getField kvs "ca" = some dca →
      FileOrValue.parse dsig = .ok fv1 →
      FileOrValue.parse dca = .ok fv2 →
      AuthConfig.parse (.table kvs) =
        .ok (.CertificateAuthorityConfig { signature := fv1, ca := fv2 })) ∧
    (∀ kvs, getField kvs "secret" = none →
      (getField kvs "signature" = none ∨ getField kvs "ca" = none) →
      AuthConfig.parse (.table kvs) = .error (.untaggedNoMatch "AuthConfig")) := by
  refine ⟨?_, ?_, ?_⟩
  · intro kvs s h
    simp [AuthConfig.parse, SharedSecretConfig.parse, reqStringField, h, Doc.asString]
  · intro kvs dsig dca fv1 fv2 hsec hsig hca h1 h2
    simp [AuthConfig.parse, SharedSecretConfig.parse,
      CertificateAuthorityConfig.parse, reqStringField, hsec, hsig, hca, h1, h2]
  · intro kvs hsec hdisj
    have hss : SharedSecretConfig.parse (.table kvs) =
        .error (.missingField "secret") := by
      simp [SharedSecretConfig.parse, reqStringField, hsec]
    have hcae : ∃ e, CertificateAuthorityConfig.parse (.table kvs) = .error e := by
      rcases hdisj with h | h
      · exact ⟨.missingField "signature", by simp [CertificateAuthorityConfig.parse, h]⟩
      · cases hsig : getField kvs "signature" with
        | none =>
          exact ⟨.missingField "signature",
            by simp [CertificateAuthorityConfig.parse, hsig]⟩
        | some dsig =>
          cases hv : FileOrValue.parse dsig with
          | error e =>
            exact ⟨e, by simp [CertificateAuthorityConfig.parse, hsig, hv]⟩
          | ok fv =>
            exact ⟨.missingField "ca",
              by simp [CertificateAuthorityConfig.parse, hsig, hv, h]⟩
    obtain ⟨e, he⟩ := hcae
    simp [AuthConfig.parse, hss, he]

/-- C1 (witness): the three discrimination branches at concrete
documents — only `secret`; only `signature`+`ca`; neither. -/
theorem auth_parse_discrimination_witness :
    AuthConfig.parse (Doc.table [("secret", .str "help")]) =
      .ok (.SharedSecretConfig { cache := none, secret := "help" }) ∧
    AuthConfig.parse
        (Doc.table
          [("signature", .table [("value", .str "c2ln")]),
           ("ca", .table [("file", .str "/ca")])]) =
      .ok (.CertificateAuthorityConfig
            { signature := .value "c2ln" none, ca := .file "/ca" none }) ∧
    AuthConfig.parse (Doc.table [("other", .str "x")]) =
      .error (.untaggedNoMatch "AuthConfig") := by
  refine ⟨?_, ?_, ?_⟩
  · exact auth_parse_discrimination.1 [("secret", .str "help")] "help" rfl
  · exact auth_parse_discrimination.2.1
      [("signature", .table [("value", .str "c2ln")]),
       ("ca", .table [("file", .str "/ca")])]
      (.table [("value", .str "c2ln")]) (.table [("file", .str "/ca")])
      (.value "c2ln" none) (.file "/ca" none) rfl rfl rfl rfl rfl
  · exact auth_parse_discrimination.2.2 [("other", .str "x")] rfl (Or.inl rfl)

/-! ## C9: unknown `type` discriminator of a `network` entry -/

/-- C9: a `network` entry whose `type` tag is neither `dns` nor `peers`
fails with `unknownVariant` naming the offending tag value. -/
theorem network_parse_unknown_variant (kvs : List (String × Doc)) (s : String)
    (htag : getField kvs "type" = some (.str s))
    (hdns : s ≠ "dns") (hpeers : s ≠ "peers") :
    NetworkConfig.parse (.table kvs) = .error (.unknownVariant s) := by
  simp [NetworkConfig.parse, htag, Doc.asString, hdns, hpeers]

/-- C9 (witness): the spec's `carrier-pigeon` entry is rejected with
the unknown-variant error naming `carrier-pigeon`. -/
theorem network_parse_unknown_variant_witness :
    NetworkConfig.parse
        (Doc.table [("type", .str "carrier-pigeon"), ("domain", .str "zer.ooo")]) =
      .error (.unknownVariant "carrier-pigeon") := by
  exact network_parse_unknown_variant
    [("type", .str "carrier-pigeon"), ("domain", .str "zer.ooo")]
    "carrier-pigeon" rfl (by decide) (by decide)

/-! ## C10: the public key of a freshly parsed configuration -/

/-- C10: every `Config` produced by parsing has the serde-skipped
`public_key` field at its default, so `get_public_key` returns the
empty byte string without failing. -/
theorem parsed_config_public_key_empty (d : Doc) (c : Config)
    (h : Config.parse d = .ok c) : c.get_public_key = [] := by
  cases d with
  | str s => simp [Config.parse] at h
  | int n => simp [Config.parse] at h
  | arr items => simp [Config.parse] at h
  | table kvs =>
    simp only [Config.parse] at h
    repeat' split at h
    all_goals cases h
    all_goals rfl

/-- C10 (witness): a minimal well-formed document parses and its
configuration reports the empty public key. -/
theorem parsed_config_public_key_empty_witness :
    ∃ c, Config.parse
        (Doc.table
          [("key", .table [("file", .str "seed")]),
           ("network-id", .str "help"),
           ("auth", .table [("secret", .str "help")])]) = .ok c ∧
      c.get_public_key = [] := by
  refine ⟨{ key := .file "seed" none, public_key := [], cached_network_id := none,
            network_id := "help", server := ServerConfig.default,
            auth := .SharedSecretConfig { cache := none, secret := "help" },
            networks := [], interface := InterfaceConfig.default,
            router := RouterConfig.default }, ?_, ?_⟩
  · rfl
  · exact parsed_config_public_key_empty
      (Doc.table
        [("key", .table [("file", .str "seed")]),
         ("network-id", .str "help"),
         ("auth", .table [("secret", .str "help")])]) _ rfl

/-! ## Concrete fixtures for the runtime claims -/

/-- A minimal configuration around a given key source: shared-secret
auth, no networks, every defaulted section at its default. -/
def mkConfig (k : FileOrValue) : Config :=
  { key := k, public_key := [], cached_network_id := none, network_id := "n",
    server := ServerConfig.default,
    auth := .SharedSecretConfig { cache := none, secret := "s" },
    networks := [], interface := InterfaceConfig.default,
    router := RouterConfig.default }

/-- A filesystem with no readable files. -/
def fsEmpty : Fs := ⟨fun _ => none⟩

/-- A filesystem holding one byte `1` at path `f`. -/
def fsOne : Fs := ⟨fun p => if p = "f" then some [1] else none⟩

/-- A filesystem holding one byte `2` at path `f`. -/
def fsTwo : Fs := ⟨fun p => if p = "f" then some [2] else none⟩

/-! ## C2: memoization of a resolved `FileOrValue` -/

/-- C2 (counterexample): `get_value` takes `&self` and never fills the
cache, so resolving the same uncached `FileOrValue` twice performs a
filesystem read BOTH times (count `1` each, not `0` the second time),
and the two resolutions are not byte-identical when the file changed in
between. -/
theorem get_value_no_memoization_counterexample :
    (FileOrValue.file "f" none).get_value fsOne = (.ok [1], 1) ∧
    (FileOrValue.file "f" none).get_value fsTwo = (.ok [2], 1) := by
  exact ⟨rfl, rfl⟩

/-- C2 (amended): memoization holds from `load` onward, not from
`get_value`: once `load` has resolved the secret and filled the cache,
every later `get_value` returns exactly the bytes `load` resolved, with
zero filesystem accesses, whatever has happened to the filesystem since.
-/
theorem get_value_after_load_cached (v : FileOrValue) (fs : Fs)
    (v' : FileOrValue) (n : Nat) (h : v.load fs = (.ok v', n)) :
    ∃ b, v.get_value fs = (.ok b, n) ∧
      ∀ fs', v'.get_value fs' = (.ok b, 0) := by
  obtain ⟨b, hg, hv⟩ := (FileOrValue.load_ok_iff v v' fs n).1 h
  exact ⟨b, hg, fun fs' => hv ▸ FileOrValue.get_value_setCache v b fs'⟩

/-- C2 (witness): loading the file reference at `f` from `fsOne` caches
`[1]`; reading it again against the changed filesystem `fsTwo` still
returns `[1]` with zero filesystem accesses. -/
theorem get_value_after_load_cached_witness :
    ∃ b, (FileOrValue.file "f" none).get_value fsOne = (.ok b, 1) ∧
      (FileOrValue.file "f" (some [1])).get_value fsTwo = (.ok b, 0) := by
  obtain ⟨b, h1, h2⟩ := get_value_after_load_cached
    (.file "f" none) fsOne (.file "f" (some [1])) 1 rfl
  exact ⟨b, h1, h2 fsTwo⟩

/-! ## C3: a nonexistent key file under `Config::load` -/

/-- C3: with `key` a file reference to an unopenable path, `load` does
NOT return the io error to its caller: `get_key_pair` unwraps the `Err`
from `get_value` and panics, aborting after the first statement. The
second conjunct shows the underlying failure really was the io error
that the claim expects `load` to surface. -/
theorem load_missing_key_file_panics :
    Config.load id (mkConfig (.file "/nonexistent" none)) fsEmpty =
      (.panicked, 1, [.deriveIdentity]) ∧
    (mkConfig (.file "/nonexistent" none)).key.get_value fsEmpty =
      (.err (.cannotOpen "/nonexistent"), 1) := by
  exact ⟨rfl, rfl⟩

/-! ## C4: failure modes of resolving a `FileOrValue` -/

/-- C4 (counterexample): an inline value whose text is not valid base64
makes `get_value` panic (`base64::decode(value).unwrap()`), not return
a decode error. -/
theorem get_value_invalid_base64_panics_counterexample :
    (FileOrValue.value "!!" none).get_value fsEmpty = (.panicked, 0) := by
  exact rfl

/-- C4 (amended): an unreadable file reference makes `get_value` return
the io error to the caller; an undecodable inline value makes it panic
(no decode error is ever returned). -/
theorem get_value_failure_modes :
    (∀ f fs, fs.files f = none →
      (FileOrValue.file f none).get_value fs = (.err (.cannotOpen f), 1)) ∧
    (∀ v fs, base64decode v = none →
      (FileOrValue.value v none).get_value fs = (.panicked, 0)) := by
  constructor
  · intro f fs h
    simp [FileOrValue.get_value, h]
  · intro v fs h
    simp [FileOrValue.get_value, h]

/-- C4 (witness): both failure modes at concrete inputs — a missing
path and the invalid base64 text `****`. -/
theorem get_value_failure_modes_witness :
    (FileOrValue.file "/missing" none).get_value fsEmpty =
      (.err (.cannotOpen "/missing"), 1) ∧
    (FileOrValue.value "****" none).get_value fsEmpty = (.panicked, 0) := by
  exact ⟨get_value_failure_modes.1 "/missing" fsEmpty rfl,
         get_value_failure_modes.2 "****" fsEmpty rfl⟩

/-! ## C5: a seed of the wrong length -/

/-- C5 (counterexample): a resolved seed of 3 bytes (base64 `AAAA`)
makes `get_key_pair` panic — `from_seed_unchecked`'s `Err` is
unwrapped — and `load` aborts by the same panic; no `InvalidSeedError`
is returned to any caller. -/
theorem get_key_pair_short_seed_counterexample :
    Config.get_key_pair id (mkConfig (.value "AAAA" none)) fsEmpty =
      (.panicked, 0) ∧
    Config.load id (mkConfig (.value "AAAA" none)) fsEmpty =
      (.panicked, 0, [.deriveIdentity]) := by
  exact ⟨rfl, rfl⟩

/-- C5 (amended): whenever the key resolves to bytes that are not
exactly 32 long, `get_key_pair` panics rather than returning an error,
and `load` aborts by that panic after its first statement. -/
theorem get_key_pair_bad_seed_panics (derive : Bytes → Bytes) (c : Config)
    (fs : Fs) (bs : Bytes) (n : Nat)
    (h : c.key.get_value fs = (.ok bs, n)) (hlen : bs.length ≠ 32) :
    c.get_key_pair derive fs = (.panicked, n) ∧
    Config.load derive c fs = (.panicked, n, [.deriveIdentity]) := by
  have hk : c.get_key_pair derive fs = (.panicked, n) := by
    simp [Config.get_key_pair, h, Ed25519KeyPair.from_seed_unchecked, hlen]
  refine ⟨hk, ?_⟩
  simp [Config.load, hk]

/-- C5 (witness): a 6-byte seed (base64 `AAAAAAAA`) panics both
`get_key_pair` and `load`. -/
theorem get_key_pair_bad_seed_panics_witness :
    Config.get_key_pair id (mkConfig (.value "AAAAAAAA" none)) fsEmpty =
      (.panicked, 0) ∧
    Config.load id (mkConfig (.value "AAAAAAAA" none)) fsEmpty =
      (.panicked, 0, [.deriveIdentity]) := by
  exact get_key_pair_bad_seed_panics id (mkConfig (.value "AAAAAAAA" none))
    fsEmpty [0, 0, 0, 0, 0, 0] 0 rfl (by decide)

/-! ## C6: order and fail-fast behavior of `Config::load` -/

/-- Both `unwrap`s inside `get_key_pair` turn failure into a panic, so
its outcome is never a returned error. -/
theorem Config.get_key_pair_ne_err (derive : Bytes → Bytes) (c : Config)
    (fs : Fs) (e : IoError) (n : Nat) :
    c.get_key_pair derive fs ≠ (.err e, n) := by
  intro h
  unfold Config.get_key_pair at h
  repeat' split at h
  all_goals simp at h

/-- A filesystem holding a 32-byte seed (all `7`) at path `seed`. -/
def fsSeedA : Fs := ⟨fun p => if p = "seed" then some (List.replicate 32 7) else none⟩

/-- A filesystem holding a DIFFERENT 32-byte seed (all `9`) at path
`seed`. -/
def fsSeedB : Fs := ⟨fun p => if p = "seed" then some (List.replicate 32 9) else none⟩

/-- A configuration with a valid 32-byte seed file but whose
certificate-authority signature holds invalid base64, so the auth step
of `load` panics. -/
def cfgAuthPanic : Config :=
  { key := .file "seed" none, public_key := [], cached_network_id := none,
    network_id := "n", server := ServerConfig.default,
    auth := .CertificateAuthorityConfig
      { signature := .value "!!" none, ca := .file "/ca" none },
    networks := [], interface := InterfaceConfig.default,
    router := RouterConfig.default }

/-- C6 (counterexample): a failing step does not always return an
error: here step (3) — resolving the chosen auth method, a certificate
signature holding invalid base64 — panics, so the whole load aborts
WITHOUT returning the first error, although the remaining step (4) is
indeed not executed. -/
theorem load_step_failure_without_error_counterexample :
    Config.load id cfgAuthPanic fsSeedA =
      (.panicked, 1, [.deriveIdentity, .cacheNetworkId, .authLoad]) := by
  exact rfl

/-- C6 (amended): `load` executes its four statements in source order —
derive identity, cache network id, load auth, load key — and stops at
the first failing one; a failure of the auth or key step by a returned
error makes `load` return exactly that first error, while a failing
keypair derivation (step 1) or a panicking resolution aborts by panic;
in every case the statements after the failing one never execute. -/
theorem load_order_and_fail_fast (derive : Bytes → Bytes) (c : Config)
    (fs : Fs) :
    (∃ n, Config.load derive c fs = (.panicked, n, [.deriveIdentity]) ∧
       (c.get_key_pair derive fs).1 = .panicked) ∨
    (∃ e n, Config.load derive c fs =
         (.err e, n, [.deriveIdentity, .cacheNetworkId, .authLoad]) ∧
       (c.auth.load fs).1 = .err e) ∨
    (∃ n, Config.load derive c fs =
         (.panicked, n, [.deriveIdentity, .cacheNetworkId, .authLoad]) ∧
       (c.auth.load fs).1 = .panicked) ∨
    (∃ e n, Config.load derive c fs =
         (.err e, n, [.deriveIdentity, .cacheNetworkId, .authLoad, .keyLoad]) ∧
       (c.key.load fs).1 = .err e) ∨
    (∃ n, Config.load derive c fs =
         (.panicked, n, [.deriveIdentity, .cacheNetworkId, .authLoad, .keyLoad]) ∧
       (c.key.load fs).1 = .panicked) ∨
    (∃ c' n, Config.load derive c fs =
         (.ok c', n, [.deriveIdentity, .cacheNetworkId, .authLoad, .keyLoad])) := by
  rcases hk : c.get_key_pair derive fs with ⟨ko, n1⟩
  cases ko with
  | err e => exact absurd hk (Config.get_key_pair_ne_err derive c fs e n1)
  | panicked =>
    exact Or.inl ⟨n1, by simp [Config.load, hk], rfl⟩
  | ok kp =>
    rcases ha : c.auth.load fs with ⟨ao, n2⟩
    cases ao with
    | err e =>
      refine Or.inr (Or.inl ⟨e, n1 + n2, ?_, rfl⟩)
      simp [Config.load, hk, ha]
    | panicked =>
      refine Or.inr (Or.inr (Or.inl ⟨n1 + n2, ?_, rfl⟩))
      simp [Config.load, hk, ha]
    | ok a' =>
      rcases hb : c.key.load fs with ⟨bo, n3⟩
      cases bo with
      | err e =>
        refine Or.inr (Or.inr (Or.inr (Or.inl ⟨e, n1 + n2 + n3, ?_, rfl⟩)))
        simp [Config.load, hk, ha, hb]
      | panicked =>
        refine Or.inr (Or.inr (Or.inr (Or.inr (Or.inl
          ⟨n1 + n2 + n3, ?_, rfl⟩))))
        simp [Config.load, hk, ha, hb]
      | ok key' =>
        refine Or.inr (Or.inr (Or.inr (Or.inr (Or.inr
          ⟨{ c with
               public_key := kp.public_key_bytes,
               cached_network_id :=
                 some (Config.get_network_id
                   { c with public_key := kp.public_key_bytes }),
               auth := a', key := key' },
           n1 + n2 + n3, ?_⟩))))
        simp [Config.load, hk, ha, hb]

/-! ## C7: the public identity is a pure function of the seed -/

/-- C7: the keypair (hence the public key) depends only on the resolved
seed bytes: two configurations whose keys resolve to the same bytes —
whatever their other fields, caches, or filesystems — derive the same
keypair, and in particular re-deriving from the same seed is
deterministic. -/
theorem get_key_pair_depends_only_on_seed (derive : Bytes → Bytes)
    (c1 c2 : Config) (fs1 fs2 : Fs)
    (h : (c1.key.get_value fs1).1 = (c2.key.get_value fs2).1) :
    (c1.get_key_pair derive fs1).1 = (c2.get_key_pair derive fs2).1 := by
  rcases h1 : c1.key.get_value fs1 with ⟨o1, m1⟩
  rcases h2 : c2.key.get_value fs2 with ⟨o2, m2⟩
  rw [h1, h2] at h
  simp only at h
  subst h
  cases o1 with
  | ok seed =>
    cases hfs : Ed25519KeyPair.from_seed_unchecked derive seed with
    | some kp => simp [Config.get_key_pair, h1, h2, hfs]
    | none => simp [Config.get_key_pair, h1, h2, hfs]
  | err e => simp [Config.get_key_pair, h1, h2]
  | panicked => simp [Config.get_key_pair, h1, h2]

/-- A configuration whose key is a file reference with 32 cached seed
bytes. -/
def cfgSeedAsFile : Config := mkConfig (.file "k" (some (List.replicate 32 1)))

/-- A configuration resolving to the SAME 32 seed bytes from an inline
value, with every other piece of state different. -/
def cfgSeedAsValue : Config :=
  { key := .value "unused" (some (List.replicate 32 1)),
    public_key := [3], cached_network_id := some [4], network_id := "other",
    server := { threads := 9, port := 1, ip := .v4 1 2 3 4,
                unix_socket := some "/sock" },
    auth := .CertificateAuthorityConfig
      { signature := .file "/sig" none, ca := .file "/ca" none },
    networks := [.DnsNetworkConfig { domain := "zer.ooo" }],
    interface := { mode := .Tun, name := "x%d", mtu := 9000 },
    router := RouterConfig.default }

/-- C7 (witness): the two configurations above resolve their keys to
identical bytes and derive identical keypairs. -/
theorem get_key_pair_depends_only_on_seed_witness :
    (Config.get_key_pair id cfgSeedAsFile fsEmpty).1 =
      (Config.get_key_pair id cfgSeedAsValue fsEmpty).1 := by
  exact get_key_pair_depends_only_on_seed id cfgSeedAsFile cfgSeedAsValue
    fsEmpty fsEmpty rfl

/-! ## C8: idempotence of `Config::load` -/

/-- A successfully loaded `AuthConfig` is a fixed point of `load`, and
reloading performs no filesystem access: every secret it owns is
cached. -/
theorem AuthConfig.load_ok_fixed (a a' : AuthConfig) (fs : Fs) (n : Nat)
    (h : a.load fs = (.ok a', n)) : ∀ fs', a'.load fs' = (.ok a', 0) := by
  intro fs'
  cases a with
  | SharedSecretConfig s =>
    simp only [AuthConfig.load, SharedSecretConfig.load, Prod.mk.injEq,
      Outcome.ok.injEq] at h
    obtain ⟨ha, hn⟩ := h
    subst ha
    simp [AuthConfig.load, SharedSecretConfig.load, SharedSecretConfig.get_secret]
  | CertificateAuthorityConfig cc =>
    rcases hcc : cc.load fs with ⟨o, m⟩
    rw [AuthConfig.load, hcc] at h
    cases o with
    | err e => simp at h
    | panicked => simp at h
    | ok c' =>
      simp only [Prod.mk.injEq, Outcome.ok.injEq, AuthConfig.CertificateAuthorityConfig.injEq] at h
      obtain ⟨ha, hn⟩ := h
      subst ha
      -- unpack the two successful FileOrValue loads
      rcases hs : cc.signature.load fs with ⟨so, sm⟩
      rw [CertificateAuthorityConfig.load, hs] at hcc
      cases so with
      | err e => simp at hcc
      | panicked => simp at hcc
      | ok sig' =>
        rcases hca : cc.ca.load fs with ⟨co, cm⟩
        rw [hca] at hcc
        cases co with
        | err e => simp at hcc
        | panicked => simp at hcc
        | ok ca' =>
          simp only [Prod.mk.injEq, Outcome.ok.injEq] at hcc
          obtain ⟨hc', _⟩ := hcc
          obtain ⟨b1, _, hsig⟩ := (FileOrValue.load_ok_iff _ _ _ _).1 hs
          obtain ⟨b2, _, hcab⟩ := (FileOrValue.load_ok_iff _ _ _ _).1 hca
          subst hc'
          subst hsig
          subst hcab
          simp [AuthConfig.load, CertificateAuthorityConfig.load,
            FileOrValue.load_setCache]

/-- A successful `get_key_pair` is exactly a successful key resolution
to a seed accepted by the (length-checked) keypair derivation. -/
theorem Config.get_key_pair_ok_elim (derive : Bytes → Bytes) (c : Config)
    (fs : Fs) (kp : Ed25519KeyPair) (n : Nat)
    (h : c.get_key_pair derive fs = (.ok kp, n)) :
    ∃ seed, c.key.get_value fs = (.ok seed, n) ∧
      Ed25519KeyPair.from_seed_unchecked derive seed = some kp := by
  unfold Config.get_key_pair at h
  rcases hg : c.key.get_value fs with ⟨o, m⟩
  rw [hg] at h
  cases o with
  | ok seed =>
    simp only at h
    cases hfs : Ed25519KeyPair.from_seed_unchecked derive seed with
    | some kp2 =>
      rw [hfs] at h
      simp only [Prod.mk.injEq, Outcome.ok.injEq] at h
      obtain ⟨hk2, hm⟩ := h
      exact ⟨seed, by rw [hm], by rw [hfs, hk2]⟩
    | none => rw [hfs] at h; simp at h
  | err e => simp at h
  | panicked => simp at h

/-- C8 (amended): a second `load` after a successful one re-derives the
identity from the CACHED bytes — no file is re-read (zero filesystem
accesses) — overwrites every cache with the value it already holds, and
returns the configuration unchanged, on any filesystem state. -/
theorem load_idempotent_fixed_point (derive : Bytes → Bytes) (c : Config)
    (fs : Fs) (c' : Config) (n : Nat) (tr : List Step)
    (h : Config.load derive c fs = (.ok c', n, tr)) :
    ∀ fs', Config.load derive c' fs' =
      (.ok c', 0, [.deriveIdentity, .cacheNetworkId, .authLoad, .keyLoad]) := by
  intro fs'
  rcases hk : c.get_key_pair derive fs with ⟨ko, n1⟩
  simp only [Config.load] at h
  rw [hk] at h
  cases ko with
  | err e => simp at h
  | panicked => simp at h
  | ok kp =>
    simp only at h
    rcases ha : (AuthConfig.load c.auth fs) with ⟨ao, n2⟩
    rw [ha] at h
    cases ao with
    | err e => simp at h
    | panicked => simp at h
    | ok a' =>
      simp only at h
      rcases hb : (FileOrValue.load c.key fs) with ⟨bo, n3⟩
      rw [hb] at h
      cases bo with
      | err e => simp at h
      | panicked => simp at h
      | ok key' =>
        simp only [Prod.mk.injEq, Outcome.ok.injEq] at h
        obtain ⟨hc', -, -⟩ := h
        obtain ⟨seed, hseed, hfsu⟩ := Config.get_key_pair_ok_elim derive c fs kp n1 hk
        obtain ⟨b, hgb, hkey'⟩ := (FileOrValue.load_ok_iff _ _ _ _).1 hb
        rw [hseed] at hgb
        simp only [Prod.mk.injEq, Outcome.ok.injEq] at hgb
        obtain ⟨hbs, -⟩ := hgb
        subst hbs
        have hauth' := AuthConfig.load_ok_fixed c.auth a' fs n2 ha fs'
        subst hkey'
        subst hc'
        simp [Config.load, Config.get_key_pair, FileOrValue.get_value_setCache,
          hfsu, Config.get_network_id, hauth', FileOrValue.load_setCache]

/-- The configuration that loading `mkConfig (.file "seed" none)` from
`fsSeedA` produces: key bytes, public key, network-id bytes (`n` is
byte 110) and shared-secret bytes (`s` is byte 115) all cached. -/
def cfgLoaded : Config :=
  { key := .file "seed" (some (List.replicate 32 7)),
    public_key := List.replicate 32 7,
    cached_network_id := some [110], network_id := "n",
    server := ServerConfig.default,
    auth := .SharedSecretConfig { cache := some [115], secret := "s" },
    networks := [], interface := InterfaceConfig.default,
    router := RouterConfig.default }

/-- C8 (counterexample): the second `load` does NOT re-read the backing
files. The first load (2 filesystem accesses) caches the seed bytes
`7…`; the seed file then changes to `9…`, yet the second load performs
ZERO filesystem accesses and keeps every cache — including the stale
seed — exactly as it was. -/
theorem load_does_not_reread_counterexample :
    Config.load id (mkConfig (.file "seed" none)) fsSeedA =
      (.ok cfgLoaded, 2, [.deriveIdentity, .cacheNetworkId, .authLoad, .keyLoad]) ∧
    Config.load id cfgLoaded fsSeedB =
      (.ok cfgLoaded, 0, [.deriveIdentity, .cacheNetworkId, .authLoad, .keyLoad]) := by
  exact ⟨rfl, rfl⟩

/-- C8 (witness): the fixed-point theorem applied to the concrete
first load above: reloading the loaded configuration (here against the
original filesystem) succeeds, reads nothing, and changes nothing. -/
theorem load_idempotent_fixed_point_witness :
    Config.load id cfgLoaded fsSeedA =
      (.ok cfgLoaded, 0, [.deriveIdentity, .cacheNetworkId, .authLoad, .keyLoad]) := by
  exact load_idempotent_fixed_point id (mkConfig (.file "seed" none)) fsSeedA
    cfgLoaded 2 [.deriveIdentity, .cacheNetworkId, .authLoad, .keyLoad] rfl fsSeedA
